import Mathlib

/-!
# Verification of nectarflower-rs (`src/lib.rs`)

A shallow embedding of the nectarflower-rs Hive JSON-RPC client together
with proofs about its failover dispatch (`Client::call`), response-envelope
handling (`Client::call_node`), node-registry update (`Client::set_nodes`),
and account-metadata node discovery (`Client::get_nodes_from_account`,
`Client::update_nodes_from_account`).

External collaborators are abstracted exactly where the Rust code hands off
to a library: the HTTP transport (`reqwest`) is a function from an endpoint
to an `HttpOutcome`, JSON text parsing (`serde_json::from_str`) is a
function parameter, and URL syntax validation (`url::Url::parse`) is a
boolean predicate parameter (with one concrete model supplied for the
default endpoint invariant).  `HashMap<String, String>` is modelled as an
association list; the only operations the code performs on it are
`contains_key` and wholesale replacement.
-/

namespace NectarFlower

/-- Model of `serde_json::Value`. -/
inductive Json where
  | null : Json
  | bool : Bool → Json
  | num : Int → Json
  | str : String → Json
  | arr : List Json → Json
  | obj : List (String × Json) → Json

/-- `serde_json::Value::get(key)` on an object: look the key up among the
object's fields (objects produced by `serde_json` have unique keys; on the
association-list model we return the first binding). -/
def Json.get (v : Json) (key : String) : Option Json :=
  match v with
  | .obj fields => (fields.find? (fun p => p.1 == key)).map (fun p => p.2)
  | _ => none

/-- `HashMap<String, String>::contains_key`. -/
def containsKey (m : List (String × String)) (k : String) : Bool :=
  m.any (fun p => p.1 == k)

/-- `serde_json::from_value::<Vec<String>>` restricted to the element
checks it performs: succeeds iff the value is an array of strings. -/
def decodeStrings : List Json → Except String (List String)
  | [] => .ok []
  | .str s :: rest =>
    match decodeStrings rest with
    | .ok ss => .ok (s :: ss)
    | .error e => .error e
  | _ :: _ => .error "invalid type: expected a string"

/-- `serde_json::from_value::<Vec<String>>`. -/
def decodeStringList : Json → Except String (List String)
  | .arr xs => decodeStrings xs
  | _ => .error "invalid type: expected a sequence"

/-- `serde_json::from_value::<HashMap<String, String>>` on the entry checks
it performs: succeeds iff every field value is a string. -/
def decodeStringPairs : List (String × Json) → Except String (List (String × String))
  | [] => .ok []
  | (k, .str v) :: rest =>
    match decodeStringPairs rest with
    | .ok ps => .ok ((k, v) :: ps)
    | .error e => .error e
  | _ :: _ => .error "invalid type: expected a string"

/-- `serde_json::from_value::<HashMap<String, String>>`. -/
def decodeStringMap : Json → Except String (List (String × String))
  | .obj fields => decodeStringPairs fields
  | _ => .error "invalid type: expected a map"

/-- `RpcError` (src/lib.rs, lines 168-172). -/
structure RpcError where
  code : Int
  message : String
  deriving Repr, DecidableEq

/-- `RpcResponse<R>` (src/lib.rs, lines 160-166). -/
structure RpcResponse (R : Type) where
  jsonrpc : String
  result : Option R
  error : Option RpcError
  id : Nat
  deriving Repr

/-- Outcome of one HTTP POST to a node, abstracting the `reqwest`
transport: either the send itself fails (`Request error`), or a response
arrives bearing a status code and a body whose decode as `RpcResponse`
(`resp.json()`) either fails or produces an envelope. -/
inductive HttpOutcome (V : Type) where
  | sendErr : String → HttpOutcome V
  | resp : Nat → Except String (RpcResponse V) → HttpOutcome V

/-- `reqwest::StatusCode::is_success`: status in 200..=299. -/
def statusIsSuccess (s : Nat) : Bool :=
  200 ≤ s && s < 300

/-- `Client::call_node` (src/lib.rs, lines 77-109): one attempt against one
node.  `decodeResult` stands for `serde_json::from_value::<R>` on the
`result` payload; the network interaction is the given `HttpOutcome`. -/
def call_node {V R : Type} (decodeResult : V → Except String R)
    (outcome : HttpOutcome V) : Except String R :=
  match outcome with
  | .sendErr e => .error ("Request error: " ++ e)
  | .resp status body =>
    if !statusIsSuccess status then
      .error ("Unexpected status code: " ++ toString status)
    else
      match body with
      | .error e => .error ("Decode error: " ++ e)
      | .ok rpc =>
        match rpc.error with
        | some err =>
          .error ("RPC error: " ++ err.message ++ " (code: " ++ toString err.code ++ ")")
        | none =>
          match rpc.result with
          | some val =>
            match decodeResult val with
            | .ok r => .ok r
            | .error e => .error ("Result decode error: " ++ e)
          | none => .error "No result in RPC response"

/-- The failover loop of `Client::call` (src/lib.rs, lines 67-74): try each
node in order, short-circuit on the first success, otherwise thread the
most recent error through `last_err` and finish with
`last_err.unwrap_or("No nodes available")`. -/
def callGo {R : Type} (attempt : String → Except String R) :
    List String → Option String → Except String R
  | [], lastErr => .error (lastErr.getD "No nodes available")
  | n :: rest, _lastErr =>
    match attempt n with
    | .ok r => .ok r
    | .error e => callGo attempt rest (some e)

/-- Instrumentation of the same loop: the list of nodes actually contacted,
in order.  A node is attempted exactly when every node before it failed. -/
def callAttempted {R : Type} (attempt : String → Except String R) :
    List String → List String
  | [] => []
  | n :: rest =>
    match attempt n with
    | .ok _ => [n]
    | .error _ => n :: callAttempted attempt rest

/-- `Client` (src/lib.rs, lines 31-36) without the `http_client` field,
which is pure transport configuration (modelled by the `net` argument of
`Client.call`). -/
structure Client where
  nodes : List String
  failing_nodes : List (String × String)
  deriving Repr, DecidableEq

/-- `Client::new` (src/lib.rs, lines 40-49). -/
def Client.new : Client :=
  { nodes := ["https://api.hive.blog"], failing_nodes := [] }

/-- `Client::set_nodes` (src/lib.rs, lines 52-59).  `urlOk` stands for the
external `url::Url::parse(node).is_ok()` check. -/
def Client.set_nodes (urlOk : String → Bool) (_c : Client)
    (nodes : List String) (failing_nodes : List (String × String)) : Client :=
  { nodes := nodes.filter (fun node => !containsKey failing_nodes node && urlOk node),
    failing_nodes := failing_nodes }

/-- `Client::call` (src/lib.rs, lines 62-75), with the per-node attempt
expanded to `call_node` over the transport `net`. -/
def Client.call {V R : Type} (decodeResult : V → Except String R)
    (net : String → HttpOutcome V) (c : Client) : Except String R :=
  callGo (fun node => call_node decodeResult (net node)) c.nodes none

/-- The nodes `Client.call` contacts, in order (instrumented transport). -/
def Client.callTrace {V R : Type} (decodeResult : V → Except String R)
    (net : String → HttpOutcome V) (c : Client) : List String :=
  callAttempted (fun node => call_node decodeResult (net node)) c.nodes

/-- `Account` (src/lib.rs, lines 14-18). -/
structure Account where
  name : String
  json_metadata : String
  deriving Repr, DecidableEq

/-- `AccountsResponse` (src/lib.rs, lines 20-23). -/
structure AccountsResponse where
  accounts : List Account
  deriving Repr, DecidableEq

/-- `NodeData` (src/lib.rs, lines 25-29). -/
structure NodeData where
  nodes : List String
  failing_nodes : List (String × String)
  deriving Repr, DecidableEq

/-- Lines 123-140 of `Client::get_nodes_from_account`: from the selected
account, parse its `json_metadata` (via the external parser `parse`,
standing for `serde_json::from_str`), require a well-shaped `nodes` field,
and read an optional `failing_nodes` field, falling back to an empty map
when it is malformed. -/
def node_data_from_account (parse : String → Except String Json)
    (account : Account) : Except String NodeData :=
  match parse account.json_metadata with
  | .error e => .error ("Error parsing JSON metadata: " ++ e)
  | .ok metadata_obj =>
    match metadata_obj.get "nodes" with
    | none => .error "No nodes found in account metadata"
    | some nodesVal =>
      match decodeStringList nodesVal with
      | .error e => .error ("Error parsing nodes: " ++ e)
      | .ok ns =>
        let failing :=
          match metadata_obj.get "failing_nodes" with
          | none => []
          | some failingVal =>
            match decodeStringMap failingVal with
            | .ok m => m
            | .error _ => []
        .ok { nodes := ns, failing_nodes := failing }

/-- `Client::get_nodes_from_account` (src/lib.rs, lines 112-141).
`callResult` is the outcome of the `database_api.find_accounts` dispatch
(line 116-118); its error is wrapped as `Error fetching account`.  The
account is selected with `resp.accounts.get(0)` (line 119-122). -/
def get_nodes_from_account (parse : String → Except String Json)
    (callResult : Except String AccountsResponse)
    (account_name : String) : Except String NodeData :=
  match callResult with
  | .error e => .error ("Error fetching account: " ++ e)
  | .ok resp =>
    match resp.accounts.head? with
    | none => .error ("Account '" ++ account_name ++ "' not found")
    | some account => node_data_from_account parse account

/-- `Client::update_nodes_from_account` (src/lib.rs, lines 144-148):
discovery followed by `set_nodes`; on discovery failure the client is
returned unchanged together with the error. -/
def Client.update_nodes_from_account (urlOk : String → Bool)
    (parse : String → Except String Json)
    (callResult : Except String AccountsResponse)
    (c : Client) (account_name : String) : Client × Except String Unit :=
  match get_nodes_from_account parse callResult account_name with
  | .error e => (c, .error e)
  | .ok node_data =>
    (c.set_nodes urlOk node_data.nodes node_data.failing_nodes, .ok ())

/-- Modelled from the spec: `url::Url::parse(node).is_ok()` comes from the
external `url` crate (WHATWG URL parsing), not from this repository.  The
spec only requires "syntactically valid per standard URL parsing", so we
model validity of the absolute URLs this client deals in: a scheme (one
ASCII letter followed by letters, digits, `+`, `-` or `.`), the literal
`://`, and a non-empty remainder. -/
def isSchemeTailChar (c : Char) : Bool :=
  c.isAlphanum || c = '+' || c = '-' || c = '.'

/-- Modelled from the spec: scheme syntax of a URL (one ASCII letter, then
letters, digits, `+`, `-` or `.`). -/
def schemeOk (cs : List Char) : Bool :=
  match cs with
  | [] => false
  | c :: rest => c.isAlpha && rest.all isSchemeTailChar

/-- Modelled from the spec: split a character list at the first occurrence
of `://`, returning the part before it and the part after it. -/
def splitSchemeAux : List Char → Option (List Char × List Char)
  | [] => none
  | ':' :: '/' :: '/' :: rest => some ([], rest)
  | c :: rest =>
    match splitSchemeAux rest with
    | some (scheme, tail) => some (c :: scheme, tail)
    | none => none

/-- Modelled from the spec: URL syntactic validity — a well-formed scheme,
the literal `://`, and a non-empty remainder (see the comment on
`isSchemeTailChar`). -/
def url_parse_ok (s : String) : Bool :=
  match splitSchemeAux s.toList with
  | some (scheme, rest) => schemeOk scheme && !rest.isEmpty
  | none => false

/-- States reachable from `Client::new` by any sequence of `set_nodes` and
`update_nodes_from_account` operations (with arbitrary inputs and arbitrary
discovery outcomes), for a fixed URL validity predicate. -/
inductive Reachable (urlOk : String → Bool) : Client → Prop where
  | new : Reachable urlOk Client.new
  | set_nodes (c : Client) (nodes : List String)
      (failing_nodes : List (String × String)) :
      Reachable urlOk c →
      Reachable urlOk (c.set_nodes urlOk nodes failing_nodes)
  | update (c : Client) (parse : String → Except String Json)
      (callResult : Except String AccountsResponse) (account_name : String) :
      Reachable urlOk c →
      Reachable urlOk
        (Client.update_nodes_from_account urlOk parse callResult c account_name).1

/-! ## Lemmas about the failover loop -/

theorem callGo_first_success {R : Type} (attempt : String → Except String R)
    (pre post : List String) (n : String) (r : R)
    (hpre : ∀ p ∈ pre, ∃ e, attempt p = .error e)
    (hn : attempt n = .ok r) :
    ∀ lastErr, callGo attempt (pre ++ n :: post) lastErr = .ok r := by
  induction pre with
  | nil =>
    intro lastErr
    simp [callGo, hn]
  | cons a rest ih =>
    intro lastErr
    obtain ⟨e, he⟩ := hpre a (List.mem_cons_self a rest)
    simpa [callGo, he] using
      ih (fun p hp => hpre p (List.mem_cons_of_mem a hp)) (some e)

theorem callAttempted_first_success {R : Type} (attempt : String → Except String R)
    (pre post : List String) (n : String) (r : R)
    (hpre : ∀ p ∈ pre, ∃ e, attempt p = .error e)
    (hn : attempt n = .ok r) :
    callAttempted attempt (pre ++ n :: post) = pre ++ [n] := by
  induction pre with
  | nil => simp [callAttempted, hn]
  | cons a rest ih =>
    obtain ⟨e, he⟩ := hpre a (List.mem_cons_self a rest)
    simpa [callAttempted, he] using
      ih (fun p hp => hpre p (List.mem_cons_of_mem a hp))

theorem callGo_all_fail {R : Type} (attempt : String → Except String R)
    (errOf : String → String) (front : List String) (lastN : String)
    (h : ∀ p ∈ front ++ [lastN], attempt p = .error (errOf p)) :
    ∀ lastErr, callGo attempt (front ++ [lastN]) lastErr = .error (errOf lastN) := by
  induction front with
  | nil =>
    intro lastErr
    simp [callGo, h lastN (List.mem_singleton.mpr rfl)]
  | cons a rest ih =>
    intro lastErr
    have ha : attempt a = .error (errOf a) := h a (List.mem_cons_self a _)
    simpa [callGo, ha] using
      ih (fun p hp => h p (List.mem_cons_of_mem a hp)) (some (errOf a))

/-! ## Claim theorems -/

/-- C1: for every non-empty active endpoint list, `call(method, params)`
attempts endpoints strictly in registry order and returns the result of
the first endpoint whose attempt yields a fully successful decoded result;
no endpoint after that one is attempted.  Here `pre` are the endpoints
before the first fully successful one `n` (all of them fail), `post` the
endpoints after it: the call returns `n`'s decoded result and the contacted
endpoints are exactly `pre ++ [n]`, in order — nothing in `post`. -/
theorem call_first_success_wins {V R : Type} (decodeResult : V → Except String R)
    (net : String → HttpOutcome V) (failing : List (String × String))
    (pre post : List String) (n : String) (r : R)
    (hpre : ∀ p ∈ pre, ∃ e, call_node decodeResult (net p) = .error e)
    (hn : call_node decodeResult (net n) = .ok r) :
    Client.call decodeResult net ⟨pre ++ n :: post, failing⟩ = .ok r ∧
    Client.callTrace decodeResult net ⟨pre ++ n :: post, failing⟩ = pre ++ [n] := by
  constructor
  · exact callGo_first_success _ pre post n r hpre hn none
  · exact callAttempted_first_success _ pre post n r hpre hn

/-- Witness for C1: a transport where the first node returns HTTP 500, the
second a valid result, and a third valid node sits after it; `call` returns
the second node's decoded result and the third node is never contacted. -/
theorem call_first_success_wins_witness :
    Client.call (V := Json) (R := Json) Except.ok
      (fun node =>
        if node = "https://good.example" then
          .resp 200 (.ok { jsonrpc := "2.0", result := some (.num 7), error := none, id := 1 })
        else
          .resp 500 (.error "boom"))
      ⟨["https://bad.example", "https://good.example", "https://later.example"], []⟩ =
      .ok (.num 7) ∧
    Client.callTrace (V := Json) (R := Json) Except.ok
      (fun node =>
        if node = "https://good.example" then
          .resp 200 (.ok { jsonrpc := "2.0", result := some (.num 7), error := none, id := 1 })
        else
          .resp 500 (.error "boom"))
      ⟨["https://bad.example", "https://good.example", "https://later.example"], []⟩ =
      ["https://bad.example", "https://good.example"] := by
  have h := call_first_success_wins (V := Json) (R := Json) Except.ok
    (fun node =>
      if node = "https://good.example" then
        .resp 200 (.ok { jsonrpc := "2.0", result := some (.num 7), error := none, id := 1 })
      else
        .resp 500 (.error "boom"))
    [] ["https://bad.example"] ["https://later.example"] "https://good.example" (.num 7)
    (by
      intro p hp
      rw [List.mem_singleton] at hp
      subst hp
      exact ⟨"Unexpected status code: 500", rfl⟩)
    rfl
  exact h

/-- C4: with an empty active endpoint sequence, `call` fails with
`No nodes available` and contacts no endpoint; with a non-empty sequence on
which every attempt fails, `call` returns exactly the error of the last
endpoint in the sequence. -/
theorem call_empty_and_all_fail {V R : Type} (decodeResult : V → Except String R)
    (net : String → HttpOutcome V) (failing : List (String × String)) :
    (Client.call decodeResult net ⟨[], failing⟩ = .error "No nodes available" ∧
     Client.callTrace decodeResult net ⟨[], failing⟩ = []) ∧
    (∀ (errOf : String → String) (front : List String) (lastN : String),
      (∀ p ∈ front ++ [lastN], call_node decodeResult (net p) = .error (errOf p)) →
      Client.call decodeResult net ⟨front ++ [lastN], failing⟩ = .error (errOf lastN)) := by
  refine ⟨⟨rfl, rfl⟩, ?_⟩
  intro errOf front lastN h
  exact callGo_all_fail _ errOf front lastN h none

/-- Witness for C4: the empty-registry call fails with `No nodes available`
touching no endpoint, and a two-node registry whose attempts both fail
reports the second node's error. -/
theorem call_empty_and_all_fail_witness :
    (Client.call (V := Json) (R := Json) Except.ok (fun _ => .sendErr "down") ⟨[], []⟩ =
      .error "No nodes available" ∧
     Client.callTrace (V := Json) (R := Json) Except.ok (fun _ => .sendErr "down") ⟨[], []⟩ =
      []) ∧
    Client.call (V := Json) (R := Json) Except.ok
      (fun node => .sendErr ("down at " ++ node))
      ⟨["https://one.example", "https://two.example"], []⟩ =
      .error "Request error: down at https://two.example" := by
  refine ⟨(call_empty_and_all_fail Except.ok (fun _ => .sendErr "down") []).1, ?_⟩
  exact (call_empty_and_all_fail (V := Json) (R := Json) Except.ok
      (fun node => .sendErr ("down at " ++ node)) []).2
    (fun node => "Request error: down at " ++ node)
    ["https://one.example"] "https://two.example"
    (by
      intro p _
      rfl)

/-- The spec's description of the `set_nodes` filter, written from its
words: keep exactly the candidates that are not keys of `failing` and that
parse as syntactically valid URLs. -/
def specKeeps (failing : List (String × String)) (urlOk : String → Bool)
    (entry : String) : Bool :=
  !containsKey failing entry && urlOk entry

/-- C2: for all inputs, after `set_nodes(candidates, failing)` the active
sequence is the order-preserving filter of `candidates` (dropping failing
keys and URL-invalid entries, per `specKeeps`) and the failing map is
installed verbatim; the dropped entries are nowhere added to the failing
map (it is exactly `failing`).  Stated for every URL-validity predicate
`urlOk`, since `url::Url::parse` is an external library. -/
theorem set_nodes_filter_spec (urlOk : String → Bool) (c : Client)
    (candidates : List String) (failing : List (String × String)) :
    (Client.set_nodes urlOk c candidates failing).nodes =
      candidates.filter (specKeeps failing urlOk) ∧
    (Client.set_nodes urlOk c candidates failing).failing_nodes = failing ∧
    ((Client.set_nodes urlOk c candidates failing).nodes).Sublist candidates ∧
    ∀ entry, entry ∈ (Client.set_nodes urlOk c candidates failing).nodes ↔
      entry ∈ candidates ∧ containsKey failing entry = false ∧ urlOk entry = true := by
  refine ⟨rfl, rfl, List.filter_sublist candidates, ?_⟩
  intro entry
  simp [Client.set_nodes, List.mem_filter, Bool.not_eq_true']

/-- C5: in every state reachable from `new()` by `set_nodes` and
`update_nodes_from_account` operations, no key of the failing-node map is
in the active endpoint sequence. -/
theorem reachable_no_failing_in_nodes (urlOk : String → Bool) (c : Client)
    (h : Reachable urlOk c) :
    ∀ n ∈ c.nodes, containsKey c.failing_nodes n = false := by
  induction h with
  | new =>
    intro n _
    rfl
  | set_nodes c nodes failing _ _ =>
    intro n hn
    simp only [Client.set_nodes, List.mem_filter, Bool.and_eq_true,
      Bool.not_eq_true'] at hn
    exact hn.2.1
  | update c parse callResult account_name _ ih =>
    intro n hn
    unfold Client.update_nodes_from_account at hn ⊢
    revert hn
    cases get_nodes_from_account parse callResult account_name with
    | error e =>
      intro hn
      exact ih n hn
    | ok nd =>
      intro hn
      simp only [Client.set_nodes, List.mem_filter, Bool.and_eq_true,
        Bool.not_eq_true'] at hn
      exact hn.2.1

/-- Witness for C5: a reachable state obtained by one `set_nodes` with one
failing key and one valid candidate; the candidate is not a failing key. -/
theorem reachable_no_failing_in_nodes_witness :
    containsKey
      (Client.set_nodes url_parse_ok Client.new
        ["https://a.example"] [("https://b.example", "down")]).failing_nodes
      "https://a.example" = false :=
  reachable_no_failing_in_nodes url_parse_ok
    (Client.set_nodes url_parse_ok Client.new
      ["https://a.example"] [("https://b.example", "down")])
    (Reachable.set_nodes Client.new ["https://a.example"]
      [("https://b.example", "down")] Reachable.new)
    "https://a.example" (by decide)

/-- C10: in every state reachable from `new()` (under the modelled URL
parser `url_parse_ok`), every active endpoint is a syntactically valid URL;
in particular the default endpoint `https://api.hive.blog` installed by
`new()` is. -/
theorem reachable_nodes_valid_urls (c : Client)
    (h : Reachable url_parse_ok c) :
    ∀ n ∈ c.nodes, url_parse_ok n = true := by
  induction h with
  | new =>
    intro n hn
    rw [List.mem_singleton.mp hn]
    decide
  | set_nodes c nodes failing _ _ =>
    intro n hn
    simp only [Client.set_nodes, List.mem_filter, Bool.and_eq_true,
      Bool.not_eq_true'] at hn
    exact hn.2.2
  | update c parse callResult account_name _ ih =>
    intro n hn
    unfold Client.update_nodes_from_account at hn
    revert hn
    cases get_nodes_from_account parse callResult account_name with
    | error e =>
      intro hn
      exact ih n hn
    | ok nd =>
      intro hn
      simp only [Client.set_nodes, List.mem_filter, Bool.and_eq_true,
        Bool.not_eq_true'] at hn
      exact hn.2.2

/-- Witness for C10: the default endpoint of the freshly constructed client
is a valid URL. -/
theorem reachable_nodes_valid_urls_witness :
    url_parse_ok "https://api.hive.blog" = true :=
  reachable_nodes_valid_urls Client.new Reachable.new
    "https://api.hive.blog" (List.mem_singleton.mpr rfl)

/-- C6: `update_nodes_from_account` is atomic from the caller's view: if
discovery fails the error is returned and the client state is untouched;
if discovery succeeds the result is exactly `set_nodes` applied to the
discovered `NodeData`. -/
theorem update_nodes_atomic (urlOk : String → Bool)
    (parse : String → Except String Json)
    (callResult : Except String AccountsResponse)
    (c : Client) (account_name : String) :
    (∀ e, get_nodes_from_account parse callResult account_name = .error e →
      Client.update_nodes_from_account urlOk parse callResult c account_name =
        (c, .error e)) ∧
    (∀ nd, get_nodes_from_account parse callResult account_name = .ok nd →
      Client.update_nodes_from_account urlOk parse callResult c account_name =
        (c.set_nodes urlOk nd.nodes nd.failing_nodes, .ok ())) := by
  constructor
  · intro e he
    unfold Client.update_nodes_from_account
    rw [he]
  · intro nd hnd
    unfold Client.update_nodes_from_account
    rw [hnd]

/-- Witness for C6: a failed discovery (transport error) leaves the fresh
client unchanged, and a successful discovery installs the filtered node
list. -/
theorem update_nodes_atomic_witness :
    Client.update_nodes_from_account url_parse_ok (fun _ => .error "unused")
      (.error "connection refused") Client.new "flower" =
      (Client.new, .error "Error fetching account: connection refused") ∧
    Client.update_nodes_from_account url_parse_ok
      (fun _ => .ok (Json.obj [("nodes", Json.arr [Json.str "https://a.example"])]))
      (.ok { accounts := [{ name := "flower", json_metadata := "meta" }] })
      Client.new "flower" =
      (Client.set_nodes url_parse_ok Client.new ["https://a.example"] [], .ok ()) := by
  constructor
  · exact (update_nodes_atomic url_parse_ok (fun _ => .error "unused")
      (.error "connection refused") Client.new "flower").1
      "Error fetching account: connection refused" rfl
  · exact (update_nodes_atomic url_parse_ok
      (fun _ => .ok (Json.obj [("nodes", Json.arr [Json.str "https://a.example"])]))
      (.ok { accounts := [{ name := "flower", json_metadata := "meta" }] })
      Client.new "flower").2
      { nodes := ["https://a.example"], failing_nodes := [] } rfl

/-- A metadata text used to exercise discovery: the JSON document
`\x7b"nodes":["https://a.example"]\x7d`. -/
def sampleMetadataText : String :=
  "\x7b\"nodes\":[\"https://a.example\"]\x7d"

/-- The JSON value `serde_json::from_str` produces for
`sampleMetadataText`; the model parser mapping the one text we use to its
parse, and failing elsewhere. -/
def sampleParse : String → Except String Json := fun s =>
  if s = sampleMetadataText then
    .ok (Json.obj [("nodes", Json.arr [Json.str "https://a.example"])])
  else
    .error "expected value"

/-- Counterexample to C3: the code selects `resp.accounts.get(0)` and never
compares account names.  With a response whose only account is named
`other`, a lookup for `flower` does not fail with "account not found" as the
claim requires — it succeeds, proceeding with the differently-named first
account. -/
theorem get_nodes_ignores_account_name_counterexample :
    ("other" == "flower") = false ∧
    get_nodes_from_account sampleParse
      (.ok { accounts := [{ name := "other", json_metadata := sampleMetadataText }] })
      "flower" =
      .ok { nodes := ["https://a.example"], failing_nodes := [] } := by
  exact ⟨rfl, rfl⟩

/-- C3 (amended): `get_nodes_from_account` fails with the "account not
found" error exactly when the decoded account list is empty; otherwise it
proceeds with the *first* account of the list, regardless of whether that
account's name equals `account_name`. -/
theorem get_nodes_account_selection (parse : String → Except String Json)
    (resp : AccountsResponse) (account_name : String) :
    (resp.accounts = [] →
      get_nodes_from_account parse (.ok resp) account_name =
        .error ("Account '" ++ account_name ++ "' not found")) ∧
    (∀ a rest, resp.accounts = a :: rest →
      get_nodes_from_account parse (.ok resp) account_name =
        node_data_from_account parse a) := by
  constructor
  · intro hempty
    simp [get_nodes_from_account, hempty]
  · intro a rest hcons
    simp [get_nodes_from_account, hcons]

/-- Witness for C3 (amended): an empty account list yields the
account-not-found error, and a singleton list (of a differently-named
account) is processed via its first element. -/
theorem get_nodes_account_selection_witness :
    get_nodes_from_account sampleParse (.ok { accounts := [] }) "flower" =
      .error "Account 'flower' not found" ∧
    get_nodes_from_account sampleParse
      (.ok { accounts := [{ name := "other", json_metadata := sampleMetadataText }] })
      "flower" =
      node_data_from_account sampleParse
        { name := "other", json_metadata := sampleMetadataText } := by
  constructor
  · exact (get_nodes_account_selection sampleParse { accounts := [] } "flower").1 rfl
  · exact (get_nodes_account_selection sampleParse
      { accounts := [{ name := "other", json_metadata := sampleMetadataText }] }
      "flower").2
      { name := "other", json_metadata := sampleMetadataText } [] rfl

/-- C7: once the metadata document is parsed, a missing `nodes` field is a
hard failure ("No nodes found in account metadata"), and a present but
ill-shaped `nodes` field is a hard failure ("Error parsing nodes: ...");
in both cases the whole discovery returns an error. -/
theorem nodes_field_required (parse : String → Except String Json)
    (callResult : Except String AccountsResponse) (account_name : String)
    (resp : AccountsResponse) (account : Account) (metadata_obj : Json)
    (hcr : callResult = .ok resp)
    (hacct : resp.accounts.head? = some account)
    (hparse : parse account.json_metadata = .ok metadata_obj) :
    (metadata_obj.get "nodes" = none →
      get_nodes_from_account parse callResult account_name =
        .error "No nodes found in account metadata") ∧
    (∀ v e, metadata_obj.get "nodes" = some v → decodeStringList v = .error e →
      get_nodes_from_account parse callResult account_name =
        .error ("Error parsing nodes: " ++ e)) := by
  constructor
  · intro hnone
    simp [get_nodes_from_account, hcr, hacct, node_data_from_account, hparse, hnone]
  · intro v e hsome hdec
    simp [get_nodes_from_account, hcr, hacct, node_data_from_account, hparse, hsome, hdec]

/-- Witness for C7: metadata without a `nodes` key fails with the missing
message, and metadata whose `nodes` is a string (not an array) fails with
the parsing message. -/
theorem nodes_field_required_witness :
    get_nodes_from_account (fun _ => .ok (Json.obj [("profile", Json.null)]))
      (.ok { accounts := [{ name := "flower", json_metadata := "meta" }] })
      "flower" =
      .error "No nodes found in account metadata" ∧
    get_nodes_from_account (fun _ => .ok (Json.obj [("nodes", Json.str "oops")]))
      (.ok { accounts := [{ name := "flower", json_metadata := "meta" }] })
      "flower" =
      .error "Error parsing nodes: invalid type: expected a sequence" := by
  constructor
  · exact (nodes_field_required (fun _ => .ok (Json.obj [("profile", Json.null)]))
      (.ok { accounts := [{ name := "flower", json_metadata := "meta" }] }) "flower"
      { accounts := [{ name := "flower", json_metadata := "meta" }] }
      { name := "flower", json_metadata := "meta" }
      (Json.obj [("profile", Json.null)]) rfl rfl rfl).1 rfl
  · exact (nodes_field_required (fun _ => .ok (Json.obj [("nodes", Json.str "oops")]))
      (.ok { accounts := [{ name := "flower", json_metadata := "meta" }] }) "flower"
      { accounts := [{ name := "flower", json_metadata := "meta" }] }
      { name := "flower", json_metadata := "meta" }
      (Json.obj [("nodes", Json.str "oops")]) rfl rfl rfl).2
      (Json.str "oops") "invalid type: expected a sequence" rfl rfl

/-- C8: with a well-shaped `nodes` field, discovery succeeds regardless of
`failing_nodes`: when the field is absent the failing map is empty, and
when it is present but ill-shaped the operation still succeeds with an
empty failing map instead of an error. -/
theorem failing_nodes_soft_fail (parse : String → Except String Json)
    (callResult : Except String AccountsResponse) (account_name : String)
    (resp : AccountsResponse) (account : Account) (metadata_obj : Json)
    (nodesVal : Json) (ns : List String)
    (hcr : callResult = .ok resp)
    (hacct : resp.accounts.head? = some account)
    (hparse : parse account.json_metadata = .ok metadata_obj)
    (hnodes : metadata_obj.get "nodes" = some nodesVal)
    (hns : decodeStringList nodesVal = .ok ns) :
    (metadata_obj.get "failing_nodes" = none →
      get_nodes_from_account parse callResult account_name =
        .ok { nodes := ns, failing_nodes := [] }) ∧
    (∀ fv e, metadata_obj.get "failing_nodes" = some fv →
      decodeStringMap fv = .error e →
      get_nodes_from_account parse callResult account_name =
        .ok { nodes := ns, failing_nodes := [] }) := by
  constructor
  · intro hfail
    simp [get_nodes_from_account, hcr, hacct, node_data_from_account, hparse,
      hnodes, hns, hfail]
  · intro fv e hfv hdec
    simp [get_nodes_from_account, hcr, hacct, node_data_from_account, hparse,
      hnodes, hns, hfv, hdec]

/-- Witness for C8: metadata with only `nodes` yields an empty failing map,
and metadata whose `failing_nodes` is a string (not a map) still succeeds
with an empty failing map. -/
theorem failing_nodes_soft_fail_witness :
    get_nodes_from_account
      (fun _ => .ok (Json.obj [("nodes", Json.arr [Json.str "https://a.example"])]))
      (.ok { accounts := [{ name := "flower", json_metadata := "meta" }] })
      "flower" =
      .ok { nodes := ["https://a.example"], failing_nodes := [] } ∧
    get_nodes_from_account
      (fun _ => .ok (Json.obj
        [("nodes", Json.arr [Json.str "https://a.example"]),
         ("failing_nodes", Json.str "oops")]))
      (.ok { accounts := [{ name := "flower", json_metadata := "meta" }] })
      "flower" =
      .ok { nodes := ["https://a.example"], failing_nodes := [] } := by
  constructor
  · exact (failing_nodes_soft_fail
      (fun _ => .ok (Json.obj [("nodes", Json.arr [Json.str "https://a.example"])]))
      (.ok { accounts := [{ name := "flower", json_metadata := "meta" }] }) "flower"
      { accounts := [{ name := "flower", json_metadata := "meta" }] }
      { name := "flower", json_metadata := "meta" }
      (Json.obj [("nodes", Json.arr [Json.str "https://a.example"])])
      (Json.arr [Json.str "https://a.example"]) ["https://a.example"]
      rfl rfl rfl rfl rfl).1 rfl
  · exact (failing_nodes_soft_fail
      (fun _ => .ok (Json.obj
        [("nodes", Json.arr [Json.str "https://a.example"]),
         ("failing_nodes", Json.str "oops")]))
      (.ok { accounts := [{ name := "flower", json_metadata := "meta" }] }) "flower"
      { accounts := [{ name := "flower", json_metadata := "meta" }] }
      { name := "flower", json_metadata := "meta" }
      (Json.obj
        [("nodes", Json.arr [Json.str "https://a.example"]),
         ("failing_nodes", Json.str "oops")])
      (Json.arr [Json.str "https://a.example"]) ["https://a.example"]
      rfl rfl rfl rfl rfl).2
      (Json.str "oops") "invalid type: expected a map" rfl rfl

/-- C9: for a decoded envelope behind an HTTP-success status: an `error`
object makes the attempt fail with the RPC protocol error carrying its
code and message, even when `result` is also present; with neither
`result` nor `error` the attempt fails with the malformed-response error
(`No result in RPC response`); and only with `result` present and `error`
absent is the result payload decoded (the attempt's outcome is exactly the
decode's outcome, with decode failures wrapped as `Result decode error`). -/
theorem call_node_envelope {V R : Type} (decodeResult : V → Except String R)
    (status : Nat) (rpc : RpcResponse V)
    (hst : statusIsSuccess status = true) :
    (∀ err, rpc.error = some err →
      call_node decodeResult (.resp status (.ok rpc)) =
        .error ("RPC error: " ++ err.message ++ " (code: " ++ toString err.code ++ ")")) ∧
    (rpc.error = none → rpc.result = none →
      call_node decodeResult (.resp status (.ok rpc)) =
        .error "No result in RPC response") ∧
    (∀ v, rpc.error = none → rpc.result = some v →
      call_node decodeResult (.resp status (.ok rpc)) =
        match decodeResult v with
        | .ok r => .ok r
        | .error e => .error ("Result decode error: " ++ e)) := by
  refine ⟨?_, ?_, ?_⟩
  · intro err herr
    simp [call_node, hst, herr]
  · intro herr hres
    simp [call_node, hst, herr, hres]
  · intro v herr hres
    simp [call_node, hst, herr, hres]

/-- Witness for C9: an envelope carrying both an `error` object and a
`result` fails with the RPC error (precedence); an envelope with neither
fails with the malformed-response error; an envelope with only a `result`
decodes it. -/
theorem call_node_envelope_witness :
    call_node (V := Json) (R := Json) Except.ok
      (.resp 200 (.ok { jsonrpc := "2.0", result := some (.num 7),
                        error := some { code := -32000, message := "busy" }, id := 1 })) =
      .error "RPC error: busy (code: -32000)" ∧
    call_node (V := Json) (R := Json) Except.ok
      (.resp 200 (.ok { jsonrpc := "2.0", result := none, error := none, id := 1 })) =
      .error "No result in RPC response" ∧
    call_node (V := Json) (R := Json) Except.ok
      (.resp 200 (.ok { jsonrpc := "2.0", result := some (.num 7), error := none, id := 1 })) =
      .ok (.num 7) := by
  refine ⟨?_, ?_, ?_⟩
  · exact (call_node_envelope (V := Json) (R := Json) Except.ok 200
      { jsonrpc := "2.0", result := some (Json.num 7),
        error := some { code := -32000, message := "busy" }, id := 1 } rfl).1
      { code := -32000, message := "busy" } rfl
  · exact (call_node_envelope (V := Json) (R := Json) Except.ok 200
      { jsonrpc := "2.0", result := none, error := none, id := 1 } rfl).2.1 rfl rfl
  · exact (call_node_envelope (V := Json) (R := Json) Except.ok 200
      { jsonrpc := "2.0", result := some (Json.num 7), error := none, id := 1 } rfl).2.2
      (Json.num 7) rfl rfl

end NectarFlower
